import Mathlib

/-!
Verification of the `mcp-tutorial` repository: a shallow embedding in Lean 4 of
the agent loop and tool-call extraction logic of `langchain-ollama-mcp.py`, and
of the CSV tools of `server.py`, together with theorems settling the frozen
claims about the code.

Modelling conventions:
* Python values produced by `json.loads` (and the values stored in tool-call
  records) are modelled by the inductive type `Json`; JSON numbers are modelled
  as integers (no claim depends on float behaviour).
* Python library primitives that the extraction code calls — `re.findall` for
  fenced ```json blocks and `json.loads` — are oracles packaged in `PyEnv`;
  `json.loads` returning `none` models a raised `JSONDecodeError`.
* The remote MCP session's `call_tool`, the LangChain agent's `ainvoke`, the
  filesystem and pandas are likewise oracles; an `Except.error e` models a
  raised exception whose `str()` is `e`.
* Python `str.strip`, `str.startswith` and the `in` substring test are
  re-implemented on character lists (`pyStrip`, `pyStartsWith`, `strContains`)
  so that concrete runs reduce inside the kernel.
-/

/-- Whether `sub` occurs as a contiguous sublist of the second list. -/
def charsInfix (sub : List Char) : List Char → Bool
  | [] => sub.isEmpty
  | c :: t => List.isPrefixOf sub (c :: t) || charsInfix sub t

/-- Python's `sub in s` substring test. -/
def strContains (sub s : String) : Bool :=
  charsInfix sub.data s.data

/-- Python's `str.strip()`: drop whitespace at both ends. -/
def pyStrip (s : String) : String :=
  String.mk (List.reverse (List.dropWhile Char.isWhitespace
    (List.reverse (List.dropWhile Char.isWhitespace s.data))))

/-- Python's `s.startswith(pre)`. -/
def pyStartsWith (s pre : String) : Bool :=
  List.isPrefixOf pre.data s.data

/-- A list of naturals is sorted in non-decreasing order (executable). -/
def nonDecreasing : List Nat → Bool
  | [] => true
  | [_] => true
  | a :: b :: l => a ≤ b && nonDecreasing (b :: l)

/-- Python values as produced by `json.loads` (numbers modelled as integers). -/
inductive Json where
  | null
  | bool (b : Bool)
  | num (n : Int)
  | str (s : String)
  | arr (items : List Json)
  | obj (kvs : List (String × Json))

/-- Python truthiness of a `Json` value (`None`, `False`, `0`, `""`, `[]`,
`\x7b\x7d` are falsy). -/
def Json.truthy : Json → Bool
  | .null => false
  | .bool b => b
  | .num n => decide (n ≠ 0)
  | .str s => decide (s ≠ "")
  | .arr items => !items.isEmpty
  | .obj kvs => !kvs.isEmpty

/-- Key lookup on a JSON object (`d[k]` when present), `none` otherwise. -/
def Json.get? : Json → String → Option Json
  | .obj kvs, k => kvs.lookup k
  | _, _ => none

/-- Python's `d.get(k, default)`. -/
def Json.getD (j : Json) (k : String) (d : Json) : Json :=
  (j.get? k).getD d

/-- Whether the value is a mapping (`isinstance(x, dict)`). -/
def Json.isObj : Json → Bool
  | .obj _ => true
  | _ => false

/-- Python's `x or y` on `Json` values: `y` exactly when `x` is falsy. -/
def pyOr (x y : Json) : Json :=
  if x.truthy then x else y

/-- Python's `str()` applied to a `Json` value.  Container renderings are
abstracted (no claim inspects the rendering of a non-string value). -/
def Json.pyStr : Json → String
  | .null => "None"
  | .bool true => "True"
  | .bool false => "False"
  | .num n => toString n
  | .str s => s
  | .arr _ => "[...]"
  | .obj _ => "\x7b...\x7d"

/-- The `ToolCall` TypedDict of langchain (fields as constructed by
`extract_tool_calls`; values kept as `Json` since Python enforces no types at
runtime). -/
structure ToolCall where
  name : Json
  args : Json
  id : Json

/-- A non-dict tool-call record: an object probed with `getattr(tc, attr,
default)`; `none` models an absent attribute. -/
structure ObjRecord where
  nameAttr : Option Json
  argsAttr : Option Json
  parametersAttr : Option Json
  idAttr : Option Json

/-- One entry of an `AIMessage.tool_calls` list: either a Python dict or an
arbitrary object (`isinstance(tc, dict)` decides the branch). -/
inductive TCRecord where
  | dict (kvs : List (String × Json))
  | obj (o : ObjRecord)

/-- Conversion of one structured tool-call record, lines 83-106 of
`langchain-ollama-mcp.py`.  For a dict record the arguments are
`tc.get("args") or tc.get("parameters", \x7b\x7d)` (Python truthiness `or`)
followed by coercion of non-dict values to an empty dict; for an object record
they are `getattr(tc, "args", getattr(tc, "parameters", \x7b\x7d))` with no
coercion. -/
def convertRecord : TCRecord → ToolCall
  | .dict kvs =>
    let tc := Json.obj kvs
    let args := pyOr ((tc.get? "args").getD Json.null)
      ((tc.get? "parameters").getD (Json.obj []))
    { name := tc.getD "name" (Json.str "")
      args := if args.isObj then args else Json.obj []
      id := tc.getD "id" (Json.str "") }
  | .obj o =>
    { name := o.nameAttr.getD (Json.str "")
      args := o.argsAttr.getD (o.parametersAttr.getD (Json.obj []))
      id := o.idAttr.getD (Json.str "") }

/-- The `content` attribute of an `AIMessage`: a string, or any non-string
content (e.g. a list of parts), which the extractor never parses. -/
inductive Content where
  | str (s : String)
  | nonstr
deriving DecidableEq

/-- LangChain messages, restricted to the shapes the loop handles:
`HumanMessage`, `AIMessage` (content plus `tool_calls` list) and `ToolMessage`.
Any non-AI message is handled uniformly by `extract_tool_calls`, so the
`human` and `tool` variants also stand for other message classes. -/
inductive Message where
  | human (content : String)
  | ai (content : Content) (tool_calls_attr : List TCRecord)
  | tool (content : String) (tool_call_id : Json) (name : Json)

/-- Oracles for the Python library primitives used by the fallback textual
path: `findJsonBlocks s` is `re.findall(r"³json\s*(\x7b[\s\S]*?\x7d)\s*³", s)`
(the captured block bodies, in order), and `jsonLoads` is `json.loads`, with
`none` modelling a raised `json.JSONDecodeError`. -/
structure PyEnv where
  findJsonBlocks : String → List String
  jsonLoads : String → Option Json

/-- One invocation built from a parsed JSON dict in the fallback textual path
(lines 123-134 and 158-167): `d.get("args", d.get("parameters", \x7b\x7d))` —
key presence decides, and there is no coercion of non-dict values. -/
def fallbackCall (j : Json) : ToolCall :=
  { name := j.getD "name" (Json.str "")
    args := j.getD "args" (j.getD "parameters" (Json.obj []))
    id := j.getD "id" (Json.str "") }

/-- Processing of one fenced ```json block (lines 119-149): the block is
stripped and parsed; a parse failure is swallowed (`except Exception: pass`),
a dict yields one invocation, a list yields one invocation per dict item
(non-dict items skipped), anything else yields nothing. -/
def blockToCalls (env : PyEnv) (block : String) : List ToolCall :=
  match env.jsonLoads (pyStrip block) with
  | none => []
  | some (Json.obj kvs) => [fallbackCall (Json.obj kvs)]
  | some (Json.arr items) =>
    items.filterMap fun item =>
      match item with
      | Json.obj kvs => some (fallbackCall (Json.obj kvs))
      | _ => none
  | some _ => []

/-- `extract_tool_calls` (lines 72-171 of `langchain-ollama-mcp.py`).
Non-AI messages yield `[]`.  A non-empty `tool_calls` attribute is converted
record by record.  Otherwise, if the content is a non-empty string, fenced
```json blocks are scanned; if there are none and the stripped content starts
with `\x7b` and mentions `name` and one of `parameters`/`args`, the whole
content is parsed as one invocation; a top-level parse failure is caught
(`except (json.JSONDecodeError, KeyError): pass`) and yields `[]`. -/
def extract_tool_calls (env : PyEnv) (last_message : Message) : List ToolCall :=
  match last_message with
  | Message.human _ => []
  | Message.tool _ _ _ => []
  | Message.ai content tool_calls_attr =>
    match tool_calls_attr with
    | tc :: rest => (tc :: rest).map convertRecord
    | [] =>
      match content with
      | Content.nonstr => []
      | Content.str s =>
        if s = "" then []
        else
          match env.findJsonBlocks s with
          | b :: bs => ((b :: bs).map (blockToCalls env)).flatten
          | [] =>
            if pyStartsWith (pyStrip s) "\x7b" && strContains "name" s &&
                (strContains "parameters" s || strContains "args" s) then
              match env.jsonLoads (pyStrip s) with
              | some (Json.obj kvs) => [fallbackCall (Json.obj kvs)]
              | _ => []
            else []

/-- `parse_tool_call` (lines 174-183): reads the record's fields and
synthesizes `call_\x7biteration\x7d_\x7bindex\x7d` when the id is falsy
(Python `or`). -/
def parse_tool_call (tool_call : ToolCall) (iteration tool_index : Nat) :
    Json × Json × Json :=
  (tool_call.name, tool_call.args,
    if tool_call.id.truthy then tool_call.id
    else Json.str ("call_" ++ toString iteration ++ "_" ++ toString tool_index))

/-- One item of a remote call result's `content` list: `textAttr = some t`
models an item with a `text` attribute (`hasattr(item, "text")`), `strRepr`
its `str()`. -/
structure ContentItem where
  textAttr : Option String
  strRepr : String
deriving DecidableEq

/-- The value returned by `session.call_tool`: a `content` list and the
`str()` of the whole result object. -/
structure CallToolResult where
  content : List ContentItem
  strRepr : String
deriving DecidableEq

/-- A langchain `ToolMessage` as built by `execute_tool_call`. -/
structure ToolMessage where
  content : String
  tool_call_id : Json
  name : Json

/-- `execute_tool_call` (lines 186-226).  The whole body is inside
`try/except Exception`; the session oracle's `Except.error e` models any
exception raised by the remote call, with `str(e) = e`.  On success the first
content item's `text` (or its `str()`, or the result's `str()` when the
content list is empty) becomes the message text; on failure a diagnostic
mentioning the tool name and the error is returned — the function is total,
so no fault ever propagates. -/
def execute_tool_call (call_tool : Json → Json → Except String CallToolResult)
    (tool_name tool_args tool_id : Json) : ToolMessage :=
  match call_tool tool_name tool_args with
  | Except.ok tool_result =>
    let result_text :=
      match tool_result.content with
      | [] => tool_result.strRepr
      | first_content :: _ =>
        match first_content.textAttr with
        | some t => t
        | none => first_content.strRepr
    { content := result_text, tool_call_id := tool_id, name := tool_name }
  | Except.error e =>
    { content := "ツール '" ++ tool_name.pyStr ++
        "' の実行中にエラーが発生しました: " ++ e
      tool_call_id := tool_id, name := tool_name }

/-- The collaborators of one run of the agent loop: the agent's `ainvoke`
(`none` models a result dict without a `"messages"` key), the MCP session's
`call_tool`, and the Python parsing primitives. -/
structure AgentEnv where
  agent : List Message → Option (List Message)
  call_tool : Json → Json → Except String CallToolResult
  pyEnv : PyEnv

/-- The `ToolMessage` appended for the `tool_index`-th extracted call of one
iteration (lines 259-271 of the loop body). -/
def toolMessageFor (env : AgentEnv) (iteration : Nat) (p : Nat × ToolCall) :
    Message :=
  let r := parse_tool_call p.2 iteration p.1
  let tm := execute_tool_call env.call_tool r.1 r.2.1 r.2.2
  Message.tool tm.content tm.tool_call_id tm.name

/-- How one run of `run_agent_loop` ended. -/
inductive LoopOutcome where
  | finalAnswer (last : Message)
  | noMessagesKey
  | emptyMessagesFault
  | iterationLimitReached

/-- Observables of one run: the outcome, the number of `agent.ainvoke`
round-trips performed, and the value of the `messages` variable at the top of
every loop entry after the first, plus its final value at a normal exit
(`run_agent_loop` prepends the initial seed). -/
structure LoopResult where
  outcome : LoopOutcome
  roundTrips : Nat
  states : List (List Message)

/-- Body of the `while iteration < max_iterations` loop (lines 236-283), with
`fuel = max_iterations - iteration` so the guard is `0 < fuel`.  Each pass:
one agent round-trip; a result without a `"messages"` key breaks out
(`noMessagesKey`); indexing `result["messages"][-1]` on an empty list would
raise `IndexError` (`emptyMessagesFault`); otherwise `messages` is replaced by
the returned list, the last message goes through `extract_tool_calls`, and
either the loop stops with the final answer, or one `ToolMessage` per call is
appended (in extraction order, `enumerate` supplying the index) and the loop
repeats. -/
def loopAux (env : AgentEnv) : Nat → List Message → Nat → LoopResult
  | 0, _, _ => ⟨LoopOutcome.iterationLimitReached, 0, []⟩
  | fuel + 1, msgs, iteration =>
    match env.agent msgs with
    | none => ⟨LoopOutcome.noMessagesKey, 1, []⟩
    | some out =>
      match out.getLast? with
      | none => ⟨LoopOutcome.emptyMessagesFault, 1, []⟩
      | some last_message =>
        match extract_tool_calls env.pyEnv last_message with
        | [] => ⟨LoopOutcome.finalAnswer last_message, 1, [out]⟩
        | tc :: rest =>
          let next := out ++ ((tc :: rest).enum.map (toolMessageFor env iteration))
          let r := loopAux env fuel next (iteration + 1)
          ⟨r.outcome, r.roundTrips + 1, next :: r.states⟩

/-- `run_agent_loop` (lines 229-288): `messages` is seeded with one
`HumanMessage(question)` and `iteration` with 0, then the loop runs with
budget `max_iterations` (default 10). -/
def run_agent_loop (env : AgentEnv) (question : String)
    (max_iterations : Nat := 10) : LoopResult :=
  let seed := [Message.human question]
  let r := loopAux env max_iterations seed 0
  ⟨r.outcome, r.roundTrips, seed :: r.states⟩

/-- The pandas DataFrame held by the server, reduced to the observables the
tools print: the row count and the column names (`len(df.columns)` is the
length of the name list). -/
structure DataFrame where
  nrows : Nat
  colNames : List String
deriving DecidableEq

/-- Filesystem and pandas oracles for `read_csv`: `pathExists` is
`Path(p).exists()`, and `pdReadCsv` is `pd.read_csv`, with `Except.error e`
modelling a raised exception whose `str()` is `e`. -/
structure FsEnv where
  pathExists : String → Bool
  pdReadCsv : String → Except String DataFrame

/-- The server's `read_csv` tool (lines 52-78 of `server.py`), as a function
of the process-wide `_loaded_data` state: returns the reply string and the new
state.  A missing file and a read failure both return an error string and
leave the state untouched; only a successful read assigns `_loaded_data`. -/
def read_csv (env : FsEnv) (loaded : Option DataFrame) (file_path : String) :
    String × Option DataFrame :=
  if env.pathExists file_path = false then
    ("エラー: ファイル '" ++ file_path ++ "' が見つかりません。", loaded)
  else
    match env.pdReadCsv file_path with
    | Except.error e =>
      ("エラー: CSVファイルの読み込みに失敗しました: " ++ e, loaded)
    | Except.ok df =>
      ("CSVファイル '" ++ file_path ++ "' を読み込みました。\n" ++
        "行数: " ++ toString df.nrows ++ "\n" ++
        "列数: " ++ toString df.colNames.length ++ "\n" ++
        "列名: " ++ String.intercalate ", " df.colNames ++ "\n",
        some df)

/-- Pandas oracles for `describe_data`: `describeStr df` is
`df.describe().to_string()` (`Except.error e` models a raised exception),
`dtypesStr` and `isnullSumStr` the other two rendered blocks. -/
structure PdEnv where
  describeStr : DataFrame → Except String String
  dtypesStr : DataFrame → String
  isnullSumStr : DataFrame → String

/-- The server's `describe_data` tool (lines 82-107 of `server.py`), as a
function of the `_loaded_data` state (which it never assigns): with no data
loaded it returns a fixed error string; otherwise it renders the statistics,
converting a raised exception into an error string. -/
def describe_data (env : PdEnv) (loaded : Option DataFrame) :
    String × Option DataFrame :=
  match loaded with
  | none =>
    ("エラー: データが読み込まれていません。先にread_csvツールでCSVファイルを読み込んでください。",
      none)
  | some df =>
    match env.describeStr df with
    | Except.error e =>
      ("エラー: 統計情報の取得に失敗しました: " ++ e, some df)
    | Except.ok d =>
      ("=== データの統計情報 ===\n\n" ++ d ++
        "\n\n=== データ型 ===\n" ++ env.dtypesStr df ++
        "\n\n=== 欠損値 ===\n" ++ env.isnullSumStr df,
        some df)

/-! ## General lemmas -/

/-- Appending to a non-empty string keeps it non-empty. -/
theorem str_append_ne_empty (a b : String) (h : a ≠ "") : a ++ b ≠ "" := by
  intro hc
  apply h
  apply String.ext
  have hd := congrArg String.data hc
  rw [String.data_append] at hd
  rcases List.append_eq_nil.mp hd with ⟨h1, _⟩
  exact h1 ▸ rfl

/-- Flattening a map whose every value is empty gives the empty list. -/
theorem flatten_map_eq_nil {α β : Type} (f : β → List α) (L : List β)
    (h : ∀ x ∈ L, f x = []) : (L.map f).flatten = [] := by
  induction L with
  | nil => rfl
  | cons x xs ih =>
    simp only [List.map_cons, List.flatten_cons]
    rw [h x (by simp), ih (fun y hy => h y (by simp [hy]))]
    rfl

/-- The structured dict path's coercion always yields a mapping. -/
theorem coerce_isObj (j : Json) : (if j.isObj then j else Json.obj []).isObj = true := by
  by_cases h : j.isObj = true
  · rw [if_pos h]; exact h
  · rw [if_neg h]; rfl

/-- Two-step unfolding equation of `nonDecreasing`. -/
theorem nonDecreasing_cons_cons (a b : Nat) (l : List Nat) :
    nonDecreasing (a :: b :: l) = (decide (a ≤ b) && nonDecreasing (b :: l)) := rfl

/-! ## Claims about the server's CSV tools -/

/-- Claim C9: whenever no dataset has been loaded (`_loaded_data` is `None`),
`describe_data` returns the fixed error string directing the caller to
`read_csv`, does not raise (the embedding is a total function), and leaves the
loaded-dataset state unchanged (still `None`). -/
theorem C9_describe_data_no_data (env : PdEnv) :
    describe_data env none =
      ("エラー: データが読み込まれていません。先にread_csvツールでCSVファイルを読み込んでください。",
        none) :=
  rfl

/-- Claim C10: for every message that is not an `AIMessage`, `extract_tool_calls`
returns the empty sequence, regardless of the message's content or attributes. -/
theorem C10_non_ai_messages (env : PyEnv) (hc : String) (tcontent : String)
    (tid tname : Json) :
    extract_tool_calls env (Message.human hc) = [] ∧
    extract_tool_calls env (Message.tool tcontent tid tname) = [] :=
  ⟨rfl, rfl⟩

/-- Claim C7: for every file path that does not exist on disk, `read_csv`
returns (instead of raising — the embedding is total) a failure message that
contains the literal file path and the not-found diagnostic `見つかりません`. -/
theorem C7_read_csv_not_found (env : FsEnv) (loaded : Option DataFrame)
    (file_path : String) (h : env.pathExists file_path = false) :
    (read_csv env loaded file_path).1 =
      "エラー: ファイル '" ++ file_path ++ "' が見つかりません。" ∧
    (∃ pre post, (read_csv env loaded file_path).1 = pre ++ file_path ++ post) ∧
    (∃ pre post, (read_csv env loaded file_path).1 = pre ++ "見つかりません" ++ post) := by
  have hmsg : (read_csv env loaded file_path).1 =
      "エラー: ファイル '" ++ file_path ++ "' が見つかりません。" := by
    simp [read_csv, h]
  refine ⟨hmsg, ⟨"エラー: ファイル '", "' が見つかりません。", by rw [hmsg]⟩,
    ⟨"エラー: ファイル '" ++ file_path ++ "' が", "。", ?_⟩⟩
  rw [hmsg]
  have hsplit : ("' が見つかりません。" : String) = "' が" ++ ("見つかりません" ++ "。") := by
    decide
  rw [hsplit]
  simp [String.append_assoc]

/-- A filesystem oracle on which every path is missing. -/
def fsEnvMissing : FsEnv :=
  ⟨fun _ => false, fun _ => Except.error "read error"⟩

/-- Witness for C7 at the concrete path `sample.csv`. -/
theorem C7_read_csv_not_found_witness :
    (read_csv fsEnvMissing none "sample.csv").1 =
      "エラー: ファイル '" ++ "sample.csv" ++ "' が見つかりません。" ∧
    (∃ pre post, (read_csv fsEnvMissing none "sample.csv").1 =
      pre ++ "sample.csv" ++ post) ∧
    (∃ pre post, (read_csv fsEnvMissing none "sample.csv").1 =
      pre ++ "見つかりません" ++ post) :=
  C7_read_csv_not_found fsEnvMissing none "sample.csv" rfl

/-- Claim C8: `read_csv` is atomic on error — when the path does not exist or
`pd.read_csv` raises, the process-wide `_loaded_data` state is returned
unchanged. -/
theorem C8_read_csv_atomic (env : FsEnv) (loaded : Option DataFrame)
    (file_path : String)
    (herr : env.pathExists file_path = false ∨
      ∃ e, env.pdReadCsv file_path = Except.error e) :
    (read_csv env loaded file_path).2 = loaded := by
  rcases herr with h | ⟨e, h⟩
  · simp [read_csv, h]
  · cases hpe : env.pathExists file_path
    · simp [read_csv, hpe]
    · simp [read_csv, hpe, h]

/-- Witness for C8: a failing read leaves a previously loaded frame in place. -/
theorem C8_read_csv_atomic_witness :
    (read_csv fsEnvMissing (some ⟨2, ["a", "b"]⟩) "data.csv").2 =
      some ⟨2, ["a", "b"]⟩ :=
  C8_read_csv_atomic fsEnvMissing (some ⟨2, ["a", "b"]⟩) "data.csv" (Or.inl rfl)

/-! ## Claim about the tool invoker -/

/-- Claim C2: `execute_tool_call` never raises outward (the embedding is a
total function covering every failure of the remote call or result handling
via the session oracle's `Except.error`); on failure it returns a message
whose text is non-empty, mentions the tool's name and the error, and carries
the request's id. -/
theorem C2_execute_tool_call_failure
    (call_tool : Json → Json → Except String CallToolResult)
    (tool_name : String) (tool_args tool_id : Json) (e : String)
    (hfail : call_tool (Json.str tool_name) tool_args = Except.error e) :
    (execute_tool_call call_tool (Json.str tool_name) tool_args tool_id).content ≠ "" ∧
    (execute_tool_call call_tool (Json.str tool_name) tool_args tool_id).content =
      "ツール '" ++ tool_name ++ "' の実行中にエラーが発生しました: " ++ e ∧
    (∃ pre post,
      (execute_tool_call call_tool (Json.str tool_name) tool_args tool_id).content =
        pre ++ tool_name ++ post) ∧
    (∃ pre post,
      (execute_tool_call call_tool (Json.str tool_name) tool_args tool_id).content =
        pre ++ e ++ post) := by
  have hmsg : (execute_tool_call call_tool (Json.str tool_name) tool_args tool_id).content =
      "ツール '" ++ tool_name ++ "' の実行中にエラーが発生しました: " ++ e := by
    simp [execute_tool_call, hfail, Json.pyStr]
  refine ⟨?_, hmsg,
    ⟨"ツール '", "' の実行中にエラーが発生しました: " ++ e, by
      rw [hmsg]; simp [String.append_assoc]⟩,
    ⟨"ツール '" ++ tool_name ++ "' の実行中にエラーが発生しました: ", "", by
      rw [hmsg]; simp [String.append_assoc]⟩⟩
  rw [hmsg]
  exact str_append_ne_empty _ _
    (str_append_ne_empty _ _ (str_append_ne_empty _ _ (by decide)))

/-- A session oracle whose every call raises `boom`. -/
def failSession : Json → Json → Except String CallToolResult :=
  fun _ _ => Except.error "boom"

/-- Witness for C2 at a request naming the tool `add`. -/
theorem C2_execute_tool_call_failure_witness :
    (execute_tool_call failSession (Json.str "add") (Json.obj []) (Json.str "id1")).content ≠ "" ∧
    (execute_tool_call failSession (Json.str "add") (Json.obj []) (Json.str "id1")).content =
      "ツール '" ++ "add" ++ "' の実行中にエラーが発生しました: " ++ "boom" ∧
    (∃ pre post,
      (execute_tool_call failSession (Json.str "add") (Json.obj []) (Json.str "id1")).content =
        pre ++ "add" ++ post) ∧
    (∃ pre post,
      (execute_tool_call failSession (Json.str "add") (Json.obj []) (Json.str "id1")).content =
        pre ++ "boom" ++ post) :=
  C2_execute_tool_call_failure failSession "add" (Json.obj []) (Json.str "id1") "boom" rfl

/-! ## Claims about the extractor -/

/-- A concrete `PyEnv` whose oracles find no blocks and parse nothing (used
where only the structured path is exercised). -/
def noParseEnv : PyEnv :=
  ⟨fun _ => [], fun _ => none⟩

/-- Claim C1 counterexample: a structured record carrying both an `args` key
(with the falsy value `\x7b\x7d`) and a `parameters` key produces a request
whose arguments come from `parameters`, not from `args` — because the code
uses Python's truthiness `or` (`tc.get("args") or tc.get("parameters", ...)`),
not key precedence. -/
theorem C1_counterexample :
    (Json.obj [("name", Json.str "t"), ("args", Json.obj []),
      ("parameters", Json.obj [("x", Json.num 1)])]).get? "args" =
        some (Json.obj []) ∧
    extract_tool_calls noParseEnv (Message.ai (Content.str "")
        [TCRecord.dict [("name", Json.str "t"), ("args", Json.obj []),
          ("parameters", Json.obj [("x", Json.num 1)])]]) =
      [{ name := Json.str "t", args := Json.obj [("x", Json.num 1)],
         id := Json.str "" }] :=
  ⟨rfl, rfl⟩

/-- Claim C1 (amended): for an assistant message with a non-empty structured
tool-call list, `extract_tool_calls` returns exactly one request per entry in
list order (the image of `convertRecord`); for a dict entry, `args` takes
precedence over `parameters` only when its value is truthy — a truthy `args`
value is used (coerced to `\x7b\x7d` when not a mapping), while a falsy or
missing `args` falls back to `parameters`. -/
theorem C1_structured_extraction (env : PyEnv) (content : Content)
    (tcs : List TCRecord) (kvs : List (String × Json)) (a : Json)
    (hne : tcs ≠ []) (hget : (Json.obj kvs).get? "args" = some a)
    (htruthy : a.truthy = true) :
    extract_tool_calls env (Message.ai content tcs) = tcs.map convertRecord ∧
    (convertRecord (TCRecord.dict kvs)).args = (if a.isObj then a else Json.obj []) := by
  constructor
  · cases tcs with
    | nil => exact absurd rfl hne
    | cons t ts => rfl
  · simp [convertRecord, Json.getD, hget, pyOr, htruthy]

/-- Witness for C1 at a one-record list whose `args` is a non-empty mapping. -/
theorem C1_structured_extraction_witness :
    extract_tool_calls noParseEnv (Message.ai (Content.str "")
        [TCRecord.dict [("name", Json.str "add"),
          ("args", Json.obj [("a", Json.num 5)]), ("id", Json.str "c1")]]) =
      [TCRecord.dict [("name", Json.str "add"),
        ("args", Json.obj [("a", Json.num 5)]), ("id", Json.str "c1")]].map
          convertRecord ∧
    (convertRecord (TCRecord.dict [("name", Json.str "add"),
        ("args", Json.obj [("a", Json.num 5)]), ("id", Json.str "c1")])).args =
      (if (Json.obj [("a", Json.num 5)]).isObj then Json.obj [("a", Json.num 5)]
        else Json.obj []) :=
  C1_structured_extraction noParseEnv (Content.str "")
    [TCRecord.dict [("name", Json.str "add"),
      ("args", Json.obj [("a", Json.num 5)]), ("id", Json.str "c1")]]
    [("name", Json.str "add"), ("args", Json.obj [("a", Json.num 5)]),
      ("id", Json.str "c1")]
    (Json.obj [("a", Json.num 5)]) (List.cons_ne_nil _ _) rfl rfl

/-- The body of one fenced ```json block whose `args` value is a JSON list. -/
def c6Block : String := "\x7b\"name\": \"t\", \"args\": [1]\x7d"

/-- Assistant text carrying `c6Block` inside a fenced ```json code fence. -/
def c6Content : String := "```json " ++ c6Block ++ " ```"

/-- Oracles on which the regex finds exactly `c6Block` in `c6Content` and
`json.loads` parses that block (and nothing else). -/
def c6Env : PyEnv :=
  ⟨fun s => if s = c6Content then [c6Block] else [],
   fun s => if s = c6Block then
      some (Json.obj [("name", Json.str "t"), ("args", Json.arr [Json.num 1])])
    else none⟩

/-- Claim C6 counterexample: a fallback-path record whose `args` value is the
non-mapping `[1]` produces a request whose arguments are `[1]`, not the empty
mapping — the `isinstance(args, dict)` coercion exists only in the structured
dict branch. -/
theorem C6_counterexample :
    extract_tool_calls c6Env (Message.ai (Content.str c6Content) []) =
      [{ name := Json.str "t", args := Json.arr [Json.num 1],
         id := Json.str "" }] ∧
    (Json.arr [Json.num 1]).isObj = false :=
  ⟨rfl, rfl⟩

/-- Claim C6 (amended): in the structured path's dict branch a non-mapping
argument value is coerced to the empty mapping (the produced arguments are
always a mapping), but in the fallback textual path the `args` value is
passed through unchanged, mapping or not. -/
theorem C6_args_coercion (kvs fkvs : List (String × Json)) (a : Json)
    (hget : (Json.obj fkvs).get? "args" = some a) :
    ((convertRecord (TCRecord.dict kvs)).args).isObj = true ∧
    (fallbackCall (Json.obj fkvs)).args = a := by
  constructor
  · exact coerce_isObj _
  · simp [fallbackCall, Json.getD, hget]

/-- Witness for C6: non-mapping structured `args` is coerced, fallback `args`
is passed through. -/
theorem C6_args_coercion_witness :
    ((convertRecord (TCRecord.dict [("args", Json.str "x")])).args).isObj = true ∧
    (fallbackCall (Json.obj [("args", Json.num 7)])).args = Json.num 7 :=
  C6_args_coercion [("args", Json.str "x")] [("args", Json.num 7)] (Json.num 7) rfl

/-- Claim C3: for an assistant message with an empty structured list whose
text content is absent (empty or non-string) or contains no parseable JSON
(every block the regex finds fails to parse, and the whole stripped content
fails to parse), `extract_tool_calls` returns the empty sequence and never
faults — the top-level parse failure of the fallback path is swallowed, not
escalated. -/
theorem C3_fallback_no_parse (env : PyEnv) (content : Content)
    (hblocks : ∀ s, content = Content.str s →
      ∀ b ∈ env.findJsonBlocks s, env.jsonLoads (pyStrip b) = none)
    (htop : ∀ s, content = Content.str s → env.jsonLoads (pyStrip s) = none) :
    extract_tool_calls env (Message.ai content []) = [] := by
  cases content with
  | nonstr => rfl
  | str s =>
    by_cases hs : s = ""
    · subst hs; rfl
    · simp only [extract_tool_calls]
      rw [if_neg hs]
      cases hb : env.findJsonBlocks s with
      | nil =>
        by_cases hcond : (pyStartsWith (pyStrip s) "\x7b" && strContains "name" s &&
            (strContains "parameters" s || strContains "args" s)) = true
        · rw [if_pos hcond, htop s rfl]
        · rw [if_neg hcond]
      | cons b bs =>
        apply flatten_map_eq_nil
        intro x hx
        have hmem : x ∈ env.findJsonBlocks s := by rw [hb]; exact hx
        simp [blockToCalls, hblocks s rfl x hmem]

/-- Witness for C3 at the plain text `hello` with oracles finding nothing. -/
theorem C3_fallback_no_parse_witness :
    extract_tool_calls noParseEnv (Message.ai (Content.str "hello") []) = [] :=
  C3_fallback_no_parse noParseEnv (Content.str "hello")
    (fun _ _ _ hb => nomatch hb)
    (fun _ _ => rfl)

/-! ## Claims about the agent loop -/

/-- If every agent round-trip yields a message list whose last message carries
extractable tool calls, each pass of the loop consumes exactly one unit of
fuel and one round-trip, ending in `iterationLimitReached`. -/
theorem loopAux_always_calls (env : AgentEnv)
    (hcalls : ∀ msgs, ∃ out last, env.agent msgs = some out ∧
      out.getLast? = some last ∧ extract_tool_calls env.pyEnv last ≠ []) :
    ∀ fuel msgs iteration,
      (loopAux env fuel msgs iteration).outcome = LoopOutcome.iterationLimitReached ∧
      (loopAux env fuel msgs iteration).roundTrips = fuel := by
  intro fuel
  induction fuel with
  | zero => intro msgs it; exact ⟨rfl, rfl⟩
  | succ n ih =>
    intro msgs it
    obtain ⟨out, last, h1, h2, h3⟩ := hcalls msgs
    cases htc : extract_tool_calls env.pyEnv last with
    | nil => exact absurd htc h3
    | cons tc rest =>
      have hr := ih (out ++ ((tc :: rest).enum.map (toolMessageFor env it))) (it + 1)
      constructor
      · simp only [loopAux, h1, h2, htc]
        exact hr.1
      · simp only [loopAux, h1, h2, htc]
        rw [hr.2]

/-- Claim C5: for every iteration budget `N ≥ 1`, if the model stub returns at
least one extractable tool call on every round-trip, `run_agent_loop` with
`max_iterations = N` performs exactly `N` model round-trips (never `N + 1`)
and terminates with the iteration-limit outcome. -/
theorem C5_iteration_bound (env : AgentEnv) (question : String) (N : Nat)
    (hN : 1 ≤ N)
    (hcalls : ∀ msgs, ∃ out last, env.agent msgs = some out ∧
      out.getLast? = some last ∧ extract_tool_calls env.pyEnv last ≠ []) :
    (run_agent_loop env question N).outcome = LoopOutcome.iterationLimitReached ∧
    (run_agent_loop env question N).roundTrips = N := by
  have h := loopAux_always_calls env hcalls N [Message.human question] 0
  exact ⟨h.1, h.2⟩

/-- An assistant message whose structured list carries one `add` call. -/
def aiToolCallMsg : Message :=
  Message.ai (Content.str "")
    [TCRecord.dict [("name", Json.str "add"), ("args", Json.obj []),
      ("id", Json.str "c0")]]

/-- A session oracle whose every call succeeds with one text item `8`. -/
def okSession : Json → Json → Except String CallToolResult :=
  fun _ _ => Except.ok ⟨[⟨some "8", "TextContent"⟩], "result"⟩

/-- An agent stub that always answers with a single tool-calling message. -/
def alwaysCallEnv : AgentEnv :=
  ⟨fun _ => some [aiToolCallMsg], okSession, noParseEnv⟩

/-- Witness for C5 at `N = 2`: exactly two round-trips, then the limit. -/
theorem C5_iteration_bound_witness :
    (run_agent_loop alwaysCallEnv "q" 2).outcome = LoopOutcome.iterationLimitReached ∧
    (run_agent_loop alwaysCallEnv "q" 2).roundTrips = 2 :=
  C5_iteration_bound alwaysCallEnv "q" 2 (by decide)
    (fun _ => ⟨[aiToolCallMsg], aiToolCallMsg, rfl, rfl, List.cons_ne_nil _ _⟩)

/-- An agent stub that first returns a three-message history, then forgets the
history and returns a single tool-calling message. -/
def shrinkAgent : List Message → Option (List Message) :=
  fun msgs =>
    if msgs.length ≤ 1 then
      some [Message.human "a", Message.human "b", aiToolCallMsg]
    else some [aiToolCallMsg]

/-- The loop collaborators built around `shrinkAgent`. -/
def shrinkEnv : AgentEnv :=
  ⟨shrinkAgent, okSession, noParseEnv⟩

/-- Claim C4 counterexample: the loop replaces `messages` by whatever list the
model returns (line 246) before appending observations, so with a model that
stops echoing the history the turn-sequence length shrinks between iterations:
the trace of lengths is `[1, 4, 2]`, which is not non-decreasing. -/
theorem C4_counterexample :
    ((run_agent_loop shrinkEnv "q" 2).states.map List.length) = [1, 4, 2] ∧
    nonDecreasing ((run_agent_loop shrinkEnv "q" 2).states.map List.length) = false :=
  ⟨rfl, rfl⟩

/-- If the agent never returns fewer messages than it was given, every
loop pass only lengthens the message list, so the trace of lengths headed by
the entry state is non-decreasing. -/
theorem loopAux_states_monotone (env : AgentEnv)
    (hmono : ∀ msgs out, env.agent msgs = some out → msgs.length ≤ out.length) :
    ∀ fuel msgs iteration,
      nonDecreasing ((msgs :: (loopAux env fuel msgs iteration).states).map
        List.length) = true := by
  intro fuel
  induction fuel with
  | zero => intro msgs it; rfl
  | succ n ih =>
    intro msgs it
    cases ha : env.agent msgs with
    | none => simp only [loopAux, ha]; rfl
    | some out =>
      cases hl : out.getLast? with
      | none => simp only [loopAux, ha, hl]; rfl
      | some last =>
        cases htc : extract_tool_calls env.pyEnv last with
        | nil =>
          simp only [loopAux, ha, hl, htc, List.map_cons, List.map_nil]
          rw [nonDecreasing_cons_cons]
          have hle := hmono msgs out ha
          simp [hle, nonDecreasing]
        | cons tc rest =>
          have hle : msgs.length ≤
              (out ++ ((tc :: rest).enum.map (toolMessageFor env it))).length := by
            rw [List.length_append]
            exact Nat.le_trans (hmono msgs out ha) (Nat.le_add_right _ _)
          have ihh := ih (out ++ ((tc :: rest).enum.map (toolMessageFor env it))) (it + 1)
          simp only [loopAux, ha, hl, htc, List.map_cons]
          rw [nonDecreasing_cons_cons]
          simp only [List.map_cons] at ihh
          rw [ihh, Bool.and_true, decide_eq_true_eq]
          exact hle

/-- Claim C4 (amended): the turn sequence is not append-only — each iteration
first replaces it by the model's returned list and only then appends one
observation per extracted call; its length is monotonically non-decreasing
across iterations provided the model always returns at least as many messages
as it received. -/
theorem C4_monotone_under_echo (env : AgentEnv) (question : String) (N : Nat)
    (hmono : ∀ msgs out, env.agent msgs = some out → msgs.length ≤ out.length) :
    nonDecreasing ((run_agent_loop env question N).states.map List.length) = true :=
  loopAux_states_monotone env hmono N [Message.human question] 0

/-- An agent stub that echoes its input and appends one final answer. -/
def echoAgent : List Message → Option (List Message) :=
  fun msgs => some (msgs ++ [Message.ai (Content.str "done") []])

/-- The loop collaborators built around `echoAgent`. -/
def echoEnv : AgentEnv :=
  ⟨echoAgent, okSession, noParseEnv⟩

/-- Witness for C4 (amended) with an echoing agent. -/
theorem C4_monotone_under_echo_witness :
    nonDecreasing ((run_agent_loop echoEnv "q" 3).states.map List.length) = true :=
  C4_monotone_under_echo echoEnv "q" 3
    (fun msgs out h => by
      injection h with h
      rw [← h, List.length_append]
      exact Nat.le_add_right _ _)
